import Mathlib

/-!
Verification development for the `youtube-converter` command-line tool
(`src/youtube_transfer/cli.py`).

The program is modelled by a shallow embedding:

* pure helpers (`validate_youtube_url`, the volume-string parsing block of
  `download_audio`, `_get_video_format_selector`, the format classification of
  `get_available_formats`, `_progress_hook`) become Lean functions over
  `List Char` / `String`;
* the effectful commands (`download_video`, `download_audio`, the `audio`
  and `info` click commands) become functions that take the results of the
  external collaborators (metadata fetch outcome, download outcome, presence
  of the ffmpeg binary) as parameters and return an exit status / success
  flag together with the ordered trace of observable events (library calls
  and console output);
* Python `float` parsing and formatting follows CPython: the literal
  grammar (optional sign, `inf`/`infinity`/`nan`, digits with optional
  fraction and exponent, underscores only between digits, surrounding
  whitespace stripped) yields an exact decimal value, which is rounded to
  the nearest IEEE-754 binary64 (ties to even, overflow to infinity);
  division by `100.0` rounds the exact quotient the same way; rendering
  follows CPython `repr`: the shortest decimal string that parses back to
  the same double, placed in fixed or scientific notation by the repr
  placement rule.
-/

set_option maxRecDepth 100000

/-! ## Character helpers -/

/-- A `\w` word character or a hyphen, as in the character class `[\w-]`
used by the URL patterns (ASCII fragment of Python's Unicode `\w`). -/
def wordOrHyphen (c : Char) : Bool :=
  c.isAlphanum || c == '_' || c == '-'

/-- The whitespace characters stripped by Python's `str.strip()` and by
`float()` conversion (ASCII fragment). -/
def pyWhitespace (c : Char) : Bool :=
  c == ' ' || c == '\t' || c == '\n' || c == '\r' || c == '\x0b' || c == '\x0c'

/-- `s.strip()`: drop leading and trailing whitespace. -/
def pyStripL (cs : List Char) : List Char :=
  ((cs.dropWhile pyWhitespace).reverse.dropWhile pyWhitespace).reverse

/-- `s.lower()` (ASCII fragment). -/
def toLowerL (cs : List Char) : List Char :=
  cs.map Char.toLower

/-- `s.endswith(suf)`. -/
def endsWithL (s suf : List Char) : Bool :=
  decide (suf.length ≤ s.length) && (s.drop (s.length - suf.length) == suf)

/-- `s[:-k]`: drop the last `k` characters. -/
def dropRightL (s : List Char) (k : Nat) : List Char :=
  s.take (s.length - k)

/-! ## URL validation (`YouTubeConverter.validate_youtube_url`)

The source checks `re.match(pattern, url)` for the three patterns

* `(?:https?://)?(?:www\.)?youtube\.com/watch\?v=[\w-]+(?:&.*)?`
* `(?:https?://)?(?:www\.)?youtu\.be/[\w-]+(?:&.*)?`
* `(?:https?://)?(?:www\.)?youtube\.com/embed/[\w-]+(?:&.*)?`

`re.match` anchors at the start of the string only (prefix match).  Each
optional group is modelled as an alternation with the empty string.  After
the literal part, the tail `[\w-]+(?:&.*)?` matched as a prefix succeeds
exactly when at least one word-or-hyphen character follows: `[\w-]+` needs
one repetition, and the trailing group `(?:&.*)?` can always match the
empty string with the rest of the input left unconsumed. -/

/-- Remove a literal prefix: `stripPrefixChars p s = some r` iff `s = p ++ r`. -/
def stripPrefixChars : List Char → List Char → Option (List Char)
  | [], s => some s
  | _ :: _, [] => none
  | p :: ps, c :: cs => if p = c then stripPrefixChars ps cs else none

/-- The optional scheme group `(?:https?://)?`. -/
def schemeOptions : List String := ["", "http://", "https://"]

/-- The optional `(?:www\.)?` group. -/
def wwwOptions : List String := ["", "www."]

/-- The tail `[\w-]+(?:&.*)?` matched as a prefix of the remaining input
(see the section comment: it succeeds iff one id character follows). -/
def hasIdCharHead : List Char → Bool
  | [] => false
  | c :: _ => wordOrHyphen c

/-- `re.match` of one of the three YouTube patterns, with the fixed literal
part `base` (the text between the optional groups and the id). -/
def matchYoutubePattern (base : String) (s : List Char) : Bool :=
  schemeOptions.any fun sch =>
    wwwOptions.any fun w =>
      match stripPrefixChars (sch.data ++ (w.data ++ base.data)) s with
      | some rest => hasIdCharHead rest
      | none => false

/-- `YouTubeConverter.validate_youtube_url` (cli.py lines 25-36). -/
def validate_youtube_url (url : String) : Bool :=
  matchYoutubePattern "youtube.com/watch?v=" url.data ||
  matchYoutubePattern "youtu.be/" url.data ||
  matchYoutubePattern "youtube.com/embed/" url.data

/-- Written from the specification's words (§4.1 / claim C1): the string has
a prefix `[scheme://][www.]<base><id>` where the scheme is `http` or
`https`, `www.` is optional, and `<id>` is one or more word/hyphen
characters; anything may follow (the match is a prefix anchored at the
start of the string). -/
def isYoutubeShape (base : String) (s : String) : Prop :=
  ∃ sch w idStr rest : String,
    (sch = "" ∨ sch = "http://" ∨ sch = "https://") ∧
    (w = "" ∨ w = "www.") ∧
    idStr.data ≠ [] ∧
    (∀ c ∈ idStr.data, wordOrHyphen c = true) ∧
    s = sch ++ w ++ base ++ idStr ++ rest

/-- Written from the specification's words: one of the three accepted URL
shapes of §4.1. -/
def matchesAcceptedUrlShape (s : String) : Prop :=
  isYoutubeShape "youtube.com/watch?v=" s ∨
  isYoutubeShape "youtu.be/" s ∨
  isYoutubeShape "youtube.com/embed/" s

example : validate_youtube_url "https://www.youtube.com/watch?v=dQw4w9WgXcQ" = true := by decide
example : validate_youtube_url "youtu.be/abc123" = true := by decide
example : validate_youtube_url "http://youtube.com/embed/x-1_y" = true := by decide
example : validate_youtube_url "" = false := by decide
example : validate_youtube_url "https://vimeo.com/12345" = false := by decide
example : validate_youtube_url "https://www.youtube.com/watch?v=" = false := by decide
example : validate_youtube_url "ftp://youtube.com/watch?v=abc" = false := by decide

/-! ## Python `float` parsing and formatting

Used by the volume block of `download_audio` (cli.py lines 168-190):
`float(v[:-2])`, `float(v[:-1])`, `float(v)` and the f-string rendering
`f"volume={val}"`.  See the model note at the top of the file. -/

/-- The exact (unrounded) decimal value `num / 10 ^ pow` of a numeric
literal, before IEEE-754 rounding. -/
structure DecFloat where
  num : Nat
  pow : Nat
deriving DecidableEq, Repr

/-- Digit string to natural number (most significant first). -/
def digitsToNat (cs : List Char) : Nat :=
  cs.foldl (fun a c => a * 10 + (c.toNat - '0'.toNat)) 0

/-- CPython's underscore rule for numeric literals: every `_` must have a
digit immediately before and after it.  The first argument says whether the
previous character was a digit. -/
def underscoresValidAux : Bool → List Char → Bool
  | _, [] => true
  | prevDigit, '_' :: rest =>
    prevDigit &&
      (match rest with | c :: _ => c.isDigit | [] => false) &&
      underscoresValidAux false rest
  | _, c :: rest => underscoresValidAux c.isDigit rest

def underscoresValid (cs : List Char) : Bool :=
  underscoresValidAux false cs

/-- The exponent part after `e`: an optional sign followed by one or more
digits. -/
def parseExpPart (cs : List Char) : Option Int :=
  match cs with
  | '+' :: rest =>
    if !rest.isEmpty && rest.all Char.isDigit then some ((digitsToNat rest : Nat) : Int) else none
  | '-' :: rest =>
    if !rest.isEmpty && rest.all Char.isDigit then some (-((digitsToNat rest : Nat) : Int)) else none
  | rest =>
    if !rest.isEmpty && rest.all Char.isDigit then some ((digitsToNat rest : Nat) : Int) else none

/-- Scale a mantissa `num / 10 ^ frac` by `10 ^ e`. -/
def applyExp (num : Nat) (frac : Nat) (e : Int) : DecFloat :=
  if (frac : Int) ≤ e then ⟨num * 10 ^ (e - (frac : Int)).toNat, 0⟩
  else ⟨num, ((frac : Int) - e).toNat⟩

/-- The unsigned decimal grammar of `float()`:
`digits [. digits] [e signed-digits]` with at least one mantissa digit.
Input is lowercased and has underscores already removed. -/
def parseDecimalCore (cs : List Char) : Option DecFloat :=
  let ip := cs.takeWhile Char.isDigit
  match cs.dropWhile Char.isDigit with
  | [] => if ip.isEmpty then none else some ⟨digitsToNat ip, 0⟩
  | '.' :: r2 =>
    let fp := r2.takeWhile Char.isDigit
    if ip.isEmpty && fp.isEmpty then none
    else
      match r2.dropWhile Char.isDigit with
      | [] => some ⟨digitsToNat (ip ++ fp), fp.length⟩
      | 'e' :: r4 => (parseExpPart r4).map (applyExp (digitsToNat (ip ++ fp)) fp.length)
      | _ => none
  | 'e' :: r4 =>
    if ip.isEmpty then none else (parseExpPart r4).map (applyExp (digitsToNat ip) 0)
  | _ => none

/-! ### IEEE-754 binary64 values

`float()` and the f-string rendering operate on IEEE-754 double-precision
values.  A finite double is `±m · 2 ^ e` with `m < 2 ^ 53` and
`e ≥ -1074`, where `2 ^ 52 ≤ m` unless `e = -1074` (subnormals) and
`m = 0` is (signed) zero.  Conversion from a decimal literal rounds the
exact rational to the nearest double, ties to even; division by `100.0`
rounds the exact quotient the same way; `repr` prints the shortest decimal
string that parses back to the same double (digit generation on exact
integers in the Steele-White / Burger-Dybvig style), with CPython's
placement rule: fixed notation when the decimal-point position `k`
satisfies `-4 < k ≤ 16`, scientific notation with a signed two-or-more
digit exponent otherwise.  The loop recursions carry fuel: the scaling
loop moves the decimal exponent by one per step (`|k| ≤ 342` for any
binary64, fuel 1400) and the digit loop emits at most 17 significant
digits before the stopping condition fires (fuel 60). -/

def minMantissa : Nat := 2 ^ 52

def maxMantissa : Nat := 2 ^ 53

def minExp : Int := -1074

/-- `⌊log₂ n⌋` by halving, with fuel (`fuel ≥ log₂ n` suffices). -/
def log2Aux : Nat → Nat → Nat
  | 0, _ => 0
  | fuel + 1, n => if n ≤ 1 then 0 else log2Aux fuel (n / 2) + 1

def log2N (n : Nat) : Nat := log2Aux n n

/-- Is `a / b ≥ 2 ^ k`? (`a, b ≥ 1`). -/
def ratGePow2 (a b : Nat) (k : Int) : Bool :=
  if 0 ≤ k then decide (b * 2 ^ k.toNat ≤ a) else decide (b ≤ a * 2 ^ (-k).toNat)

/-- `⌊log₂ (a / b)⌋` for `a, b ≥ 1`: the difference of the integer
logarithms is off by at most one and is corrected by comparison. -/
def ratLog2 (a b : Nat) : Int :=
  let est : Int := (log2N a : Int) - (log2N b : Int)
  if ratGePow2 a b (est + 1) then est + 1
  else if ratGePow2 a b est then est
  else est - 1

/-- Round `num / den` to the nearest integer, ties to even. -/
def roundNearestInt (num den : Nat) : Nat :=
  let q := num / den
  let r := num % den
  if 2 * r < den then q
  else if den < 2 * r then q + 1
  else if q % 2 = 0 then q else q + 1

/-- Round the positive rational `a / b` (`a, b ≥ 1`) to the nearest
binary64, ties to even: `some (m, e)` in canonical form (value
`m · 2 ^ e`), or `none` on overflow to infinity. -/
def roundRatToFloat64 (a b : Nat) : Option (Nat × Int) :=
  let e2 := ratLog2 a b
  let e : Int := max (e2 - 52) minExp
  let m :=
    if 0 ≤ e then roundNearestInt a (b * 2 ^ e.toNat)
    else roundNearestInt (a * 2 ^ (-e).toNat) b
  let me : Nat × Int := if m = maxMantissa then (minMantissa, e + 1) else (m, e)
  if 972 ≤ me.2 then none else some me

/-- A Python `float` value: a finite IEEE-754 binary64 `±m · 2 ^ e` in
canonical form, a signed infinity, or `nan`. -/
inductive PyFloat where
  | finite (neg : Bool) (m : Nat) (e : Int)
  | inf (neg : Bool)
  | nan
deriving DecidableEq, Repr

/-- The exact decimal value of a parsed literal, rounded to the nearest
double (a decimal overflow such as `1e999` yields infinity, as CPython
string conversion does). -/
def decToFloat64 (neg : Bool) (d : DecFloat) : PyFloat :=
  if d.num = 0 then .finite neg 0 0
  else
    match roundRatToFloat64 d.num (10 ^ d.pow) with
    | some me => .finite neg me.1 me.2
    | none => .inf neg

/-- The body of a `float()` literal after the optional sign: `inf`,
`infinity`, `nan` (case-insensitive) or the decimal grammar. -/
def pyFloatBody (neg : Bool) (body : List Char) : Option PyFloat :=
  let low := toLowerL body
  if low == "inf".data || low == "infinity".data then some (.inf neg)
  else if low == "nan".data then some .nan
  else if underscoresValid low then
    (parseDecimalCore (low.filter fun c => c != '_')).map (decToFloat64 neg)
  else none

/-- Python's `float(s)` on a character list: strip surrounding whitespace,
read an optional sign, then the body. -/
def pyFloatOfChars (cs : List Char) : Option PyFloat :=
  match pyStripL cs with
  | '+' :: rest => pyFloatBody false rest
  | '-' :: rest => pyFloatBody true rest
  | rest => pyFloatBody false rest

/-- `a [≥] b`: at least, with equality allowed exactly when `inc` holds.
The rounding interval of a double contains its endpoints (the midpoints to
the neighbouring doubles) exactly when the mantissa is even, since a
decimal sitting on the midpoint then rounds back to it (ties to even). -/
def cmpGE (inc : Bool) (a b : Nat) : Bool :=
  if inc then decide (b ≤ a) else decide (b < a)

/-- Scaling loop of the shortest-repr digit generation: with the value
`R/S` and the half-gap margins `m⁻/S`, `m⁺/S`, adjust the decimal exponent
`k` until the upper interval end `(R + m⁺)/S` lies in `(1/10, 1)` (with
the boundary inclusivity given by `inc`), so that the first generated
digit is significant. -/
def dragonScale : Nat → Nat → Nat → Nat → Nat → Bool → Int → Nat × Nat × Nat × Nat × Int
  | 0, r, s, mm, mp, _, k => (r, s, mm, mp, k)
  | fuel + 1, r, s, mm, mp, inc, k =>
    if cmpGE inc (r + mp) s then dragonScale fuel r (s * 10) mm mp inc (k + 1)
    else if (r + mp) * 10 < s then dragonScale fuel (r * 10) s (mm * 10) (mp * 10) inc (k - 1)
    else (r, s, mm, mp, k)

/-- Digit-generation loop: emit decimal digits of `R/S` until the digits
read back so far denote a decimal inside the rounding interval (below the
upper margin and above the lower margin), then round the last digit to the
nearer end, ties to the even digit. -/
def dragonDigits : Nat → Nat → Nat → Nat → Nat → Bool → List Nat → List Nat
  | 0, _, _, _, _, _, acc => acc.reverse
  | fuel + 1, r, s, mm, mp, inc, acc =>
    let r10 := r * 10
    let d := r10 / s
    let r2 := r10 % s
    let mm2 := mm * 10
    let mp2 := mp * 10
    let low := cmpGE inc mm2 r2
    let high := cmpGE inc (r2 + mp2) s
    if !low && !high then dragonDigits fuel r2 s mm2 mp2 inc (d :: acc)
    else if low && !high then (d :: acc).reverse
    else if high && !low then ((d + 1) :: acc).reverse
    else if 2 * r2 < s then (d :: acc).reverse
    else if s < 2 * r2 then ((d + 1) :: acc).reverse
    else if d % 2 = 0 then (d :: acc).reverse else ((d + 1) :: acc).reverse

/-- Shortest-round-trip digits of the positive double `m · 2 ^ e` (`m ≥ 1`,
canonical): most-significant first, with the decimal exponent `k`; the
denoted value is `0.d₁d₂… · 10 ^ k`.  The rounding interval spans half an
ulp on each side, except at a normal power-of-two boundary
(`m = 2 ^ 52`, `e > -1074`) where the gap below is a quarter ulp. -/
def dragon4 (m : Nat) (e : Int) : List Nat × Int :=
  let inc := m % 2 == 0
  let boundary := m == minMantissa && decide (minExp < e)
  let init : Nat × Nat × Nat × Nat :=
    if 0 ≤ e then
      let be := 2 ^ e.toNat
      (m * be * 4, 4, if boundary then be else be * 2, be * 2)
    else
      let be := 2 ^ (-e).toNat
      (m * 4, be * 4, if boundary then 1 else 2, 2)
  match init with
  | (r, s, mm, mp) =>
    match dragonScale 1400 r s mm mp inc 0 with
    | (r2, s2, mm2, mp2, k) => (dragonDigits 60 r2 s2 mm2 mp2 inc [], k)

def digitsToString (ds : List Nat) : String :=
  String.mk (ds.map fun d => Char.ofNat (48 + d))

/-- At least two digits, as in CPython float exponents (`1e+16`, `1e-05`). -/
def padExp2 (n : Nat) : String :=
  if n < 10 then "0" ++ toString n else toString n

/-- CPython float-repr placement of the digit string: fixed notation when
the decimal-point position `k` satisfies `-4 < k ≤ 16` (with `.0` appended
to integral values and leading zeros after `0.` as needed), scientific
notation with a signed two-digit-minimum exponent otherwise. -/
def formatFloatDigits (ds : List Nat) (k : Int) : String :=
  if -4 < k ∧ k ≤ 16 then
    if k ≤ 0 then "0." ++ String.mk (List.replicate (-k).toNat '0') ++ digitsToString ds
    else if ds.length ≤ k.toNat then
      digitsToString ds ++ String.mk (List.replicate (k.toNat - ds.length) '0') ++ ".0"
    else digitsToString (ds.take k.toNat) ++ "." ++ digitsToString (ds.drop k.toNat)
  else
    let mantissa :=
      if ds.length ≤ 1 then digitsToString ds
      else digitsToString (ds.take 1) ++ "." ++ digitsToString (ds.drop 1)
    let ex := k - 1
    mantissa ++ "e" ++ (if ex < 0 then "-" else "+") ++ padExp2 ex.natAbs

/-- `repr` / f-string rendering of a Python float: `nan`, signed `inf`,
signed zero, or the shortest decimal string that parses back to the same
double. -/
def pyFloatRepr : PyFloat → String
  | .finite neg m e =>
    (if neg then "-" else "") ++
      (if m = 0 then "0.0"
       else
         match dragon4 m e with
         | (ds, k) => formatFloatDigits ds k)
  | .inf neg => if neg then "-inf" else "inf"
  | .nan => "nan"

/-- `pct / 100.0` in the `%` branch: IEEE-754 division of the double by
`100.0`, the exact quotient rounded to the nearest double, ties to even. -/
def pyDiv100 : PyFloat → PyFloat
  | .finite neg m e =>
    if m = 0 then .finite neg 0 0
    else
      let ab : Nat × Nat :=
        if 0 ≤ e then (m * 2 ^ e.toNat, 100) else (m, 100 * 2 ^ (-e).toNat)
      match roundRatToFloat64 ab.1 ab.2 with
      | some me => .finite neg me.1 me.2
      | none => .inf neg
  | .inf neg => .inf neg
  | .nan => .nan

example : (pyFloatOfChars "150".data).map pyFloatRepr = some "150.0" := by decide
example : (pyFloatOfChars "+6".data).map pyFloatRepr = some "6.0" := by decide
example : (pyFloatOfChars "-3.5".data).map pyFloatRepr = some "-3.5" := by decide
example : (pyFloatOfChars "  1e2 ".data).map pyFloatRepr = some "100.0" := by decide
example : (pyFloatOfChars "1_0".data).map pyFloatRepr = some "10.0" := by decide
example : pyFloatOfChars "INF".data = some (.inf false) := by decide
example : pyFloatOfChars "nan".data = some .nan := by decide
example : pyFloatOfChars "abc".data = none := by decide
example : pyFloatOfChars "1_".data = none := by decide
example : pyFloatOfChars "e5".data = none := by decide
example : pyFloatOfChars "5e".data = none := by decide
example : pyFloatOfChars "+ 5".data = none := by decide
example : (pyFloatOfChars "0.1".data).map pyFloatRepr = some "0.1" := by decide
example : (pyFloatOfChars "-0".data).map pyFloatRepr = some "-0.0" := by decide
example : (pyFloatOfChars "0.30000000000000000000004".data).map pyFloatRepr = some "0.3" := by
  decide
example : (pyFloatOfChars "9007199254740993".data).map pyFloatRepr =
    some "9007199254740992.0" := by decide
example : (pyFloatOfChars "1e16".data).map pyFloatRepr = some "1e+16" := by decide
example : (pyFloatOfChars "1e-5".data).map pyFloatRepr = some "1e-05" := by decide
example : (pyFloatOfChars "0.0001".data).map pyFloatRepr = some "0.0001" := by decide
example : pyFloatRepr (pyDiv100 (decToFloat64 false ⟨11, 1⟩)) = "0.011000000000000001" := by
  decide

/-! ## Volume expression parsing (the volume block of `download_audio`,
cli.py lines 168-190)

```python
v = volume.strip()
if v.lower().endswith('db'):    expr = f"volume={float(v[:-2])}dB"
elif v.endswith('%'):           expr = f"volume={float(v[:-1]) / 100.0}"
elif v.lower().endswith('x'):   expr = f"volume={float(v[:-1])}"
else:                           expr = f"volume={float(v)}"
```
A `ValueError` from `float` (modelled as `none`) aborts with an error. -/

/-- The volume-string parsing block of `download_audio`: `some expr` is the
filter expression handed to the post-processor, `none` is the
`ValueError` branch. -/
def parseVolume (volume : String) : Option String :=
  let v := pyStripL volume.data
  if endsWithL (toLowerL v) "db".data then
    (pyFloatOfChars (dropRightL v 2)).map fun val => "volume=" ++ pyFloatRepr val ++ "dB"
  else if endsWithL v "%".data then
    (pyFloatOfChars (dropRightL v 1)).map fun pct => "volume=" ++ pyFloatRepr (pyDiv100 pct)
  else if endsWithL (toLowerL v) "x".data then
    (pyFloatOfChars (dropRightL v 1)).map fun factor => "volume=" ++ pyFloatRepr factor
  else
    (pyFloatOfChars v).map fun factor => "volume=" ++ pyFloatRepr factor

/-- The substring of the volume string that is handed to `float` (the
numeric part selected by the suffix dispatch of the volume block). -/
def volumeNumericPart (volume : String) : List Char :=
  let v := pyStripL volume.data
  if endsWithL (toLowerL v) "db".data then dropRightL v 2
  else if endsWithL v "%".data then dropRightL v 1
  else if endsWithL (toLowerL v) "x".data then dropRightL v 1
  else v

example : parseVolume "150%" = some "volume=1.5" := by decide
example : parseVolume "+6dB" = some "volume=6.0dB" := by decide
example : parseVolume "0.8x" = some "volume=0.8" := by decide
example : parseVolume "2" = some "volume=2.0" := by decide
example : parseVolume "abcdB" = none := by decide
example : parseVolume "inf" = some "volume=inf" := by decide
example : parseVolume "nan" = some "volume=nan" := by decide
example : parseVolume "1e2" = some "volume=100.0" := by decide
example : parseVolume "notanumber" = none := by decide
example : parseVolume " -3dB " = some "volume=-3.0dB" := by decide
example : parseVolume "1.5" = some "volume=1.5" := by decide
example : parseVolume "1.1%" = some "volume=0.011000000000000001" := by decide
example : parseVolume "0.30000000000000000000004x" = some "volume=0.3" := by decide

/-! ## Format classification (`YouTubeConverter.get_available_formats`,
cli.py lines 60-103)

A fetched format descriptor is a dictionary; `fmt.get(k)` is `none` when
the key is absent.  The loop appends a projection of the descriptor to the
video list when `fmt.get('vcodec') != 'none' and fmt.get('acodec') != 'none'`,
else to the audio list when `fmt.get('acodec') != 'none'`, else drops it. -/

/-- A format descriptor as delivered by the extraction library; each field
is the result of `fmt.get(key)` (`none` = key absent).  `height`, `filesize`
and `abr` are kept abstract as natural numbers. -/
structure RawFormat where
  format_id : Option String := none
  ext : Option String := none
  resolution : Option String := none
  height : Option Nat := none
  filesize : Option Nat := none
  format_note : Option String := none
  vcodec : Option String := none
  acodec : Option String := none
  abr : Option Nat := none
deriving DecidableEq, Repr

/-- The projection appended to the `video` list. -/
structure VideoEntry where
  format_id : Option String
  ext : Option String
  resolution : Option String
  height : Option Nat
  filesize : Option Nat
  format_note : String
deriving DecidableEq, Repr

/-- The projection appended to the `audio` list. -/
structure AudioEntry where
  format_id : Option String
  ext : Option String
  abr : Option Nat
  filesize : Option Nat
  format_note : String
deriving DecidableEq, Repr

def toVideoEntry (f : RawFormat) : VideoEntry :=
  ⟨f.format_id, f.ext, f.resolution, f.height, f.filesize, f.format_note.getD ""⟩

def toAudioEntry (f : RawFormat) : AudioEntry :=
  ⟨f.format_id, f.ext, f.abr, f.filesize, f.format_note.getD ""⟩

/-- `fmt.get('vcodec') != 'none'`: the video codec is not reported absent. -/
def hasVideoCodec (f : RawFormat) : Bool :=
  f.vcodec != some "none"

/-- `fmt.get('acodec') != 'none'`: the audio codec is not reported absent. -/
def hasAudioCodec (f : RawFormat) : Bool :=
  f.acodec != some "none"

/-- The classification loop of `get_available_formats` over the fetched
format list, preserving order. -/
def classifyFormats : List RawFormat → List VideoEntry × List AudioEntry
  | [] => ([], [])
  | f :: rest =>
    let r := classifyFormats rest
    if hasVideoCodec f && hasAudioCodec f then (toVideoEntry f :: r.1, r.2)
    else if hasAudioCodec f then (r.1, toAudioEntry f :: r.2)
    else r

/-! ## Quality selector (`YouTubeConverter._get_video_format_selector`,
cli.py lines 204-214) -/

/-- The `quality_map` dictionary. -/
def qualityMap : List (String × String) :=
  [("best", "best[ext=mp4]/best"),
   ("1080p", "best[height<=1080][ext=mp4]/best[height<=1080]"),
   ("720p", "best[height<=720][ext=mp4]/best[height<=720]"),
   ("480p", "best[height<=480][ext=mp4]/best[height<=480]"),
   ("360p", "best[height<=360][ext=mp4]/best[height<=360]"),
   ("worst", "worst[ext=mp4]/worst")]

/-- `quality_map.get(quality, "best[ext=mp4]/best")`. -/
def getVideoFormatSelector (quality : String) : String :=
  (qualityMap.lookup quality).getD "best[ext=mp4]/best"

example : getVideoFormatSelector "720p" = "best[height<=720][ext=mp4]/best[height<=720]" := by decide
example : getVideoFormatSelector "4k" = "best[ext=mp4]/best" := by decide

/-! ## Progress hook (`YouTubeConverter._progress_hook`, cli.py lines 216-223)

```python
if d['status'] == 'downloading':
    if 'total_bytes' in d and d['total_bytes']:
        percent = (d['downloaded_bytes'] / d['total_bytes']) * 100
        click.echo(f"\r... {percent:.1f}%", nl=False)
elif d['status'] == 'finished':
    click.echo("\n...")
```
The event dictionary is modelled with `none` for an absent key; the
`total_bytes` value itself may be Python `None` (inner `none`).  A raised
`KeyError` is modelled as `Except.error`. -/

/-- A progress event dictionary as delivered by the extraction library. -/
structure ProgressEvent where
  status : String
  downloaded_bytes : Option Nat := none
  total_bytes : Option (Option Nat) := none
deriving DecidableEq, Repr

/-- What the hook does: print a percent line (carrying the two byte counts
whose ratio is rendered), print the finished line, or print nothing. -/
inductive HookAction where
  | progressLine (downloaded total : Nat)
  | finishedLine
  | nothing
deriving DecidableEq, Repr

/-- `YouTubeConverter._progress_hook`; `Except.error` models an uncaught
`KeyError`. -/
def progress_hook (d : ProgressEvent) : Except String HookAction :=
  if d.status = "downloading" then
    match d.total_bytes with
    | some (some tb) =>
      if tb ≠ 0 then
        match d.downloaded_bytes with
        | some db => .ok (.progressLine db tb)
        | none => .error "KeyError: downloaded_bytes"
      else .ok .nothing
    | some none => .ok .nothing
    | none => .ok .nothing
  else if d.status = "finished" then .ok .finishedLine
  else .ok .nothing

example : progress_hook ⟨"downloading", some 50, some (some 200)⟩ = .ok (.progressLine 50 200) := rfl
example : progress_hook ⟨"downloading", some 50, none⟩ = .ok .nothing := rfl
example : progress_hook ⟨"downloading", some 50, some none⟩ = .ok .nothing := rfl
example : progress_hook ⟨"finished", none, none⟩ = .ok .finishedLine := rfl

/-! ## Command models

`download_video`, `download_audio` (cli.py lines 105-202) and the `audio`
and `info` click commands (lines 264-332) are embedded as functions over
the outcomes of the external collaborators:

* `fetchInfo : Option VideoInfo` — result of `get_video_info` (`none` =
  the extraction library raised; the function then printed an error and
  returned `None`);
* `fetchFormats : Option (List RawFormat)` — the format list obtained by
  `get_available_formats`' own `extract_info` call (`none` = it raised);
* `downloadOk : Bool` — whether `ydl.download` (and post-processing) raised;
* `ffmpegOk : Bool` — result of `_check_ffmpeg()`.

Each function returns its result together with the ordered trace of
observable events.  Exception payloads interpolated into error messages
(`f"...: {e}"`) are omitted from the modelled message text. -/

/-- The dictionary built by `get_video_info` (the `formats` entry is carried
along but never read by the modelled callers). -/
structure VideoInfo where
  title : String
  uploader : String
  duration : Nat
  formats : List RawFormat
deriving DecidableEq, Repr

/-- An observable event: a metadata query through the extraction library, a
download through the extraction library (with the requested format
expression and the optional `-filter:a` argument handed to the
post-processor), a printed format-list entry, or a console line
(`err = true` for the error stream). -/
inductive Ev where
  | extractInfo
  | download (format : String) (filterArgs : Option String)
  | videoFormatLine (v : VideoEntry)
  | audioFormatLine (a : AudioEntry)
  | echo (err : Bool) (msg : String)
deriving DecidableEq, Repr

def invalidUrlMsg : String := "❌ 無效的 YouTube URL"

def fetchInfoFailMsg : String := "❌ 無法獲取影片資訊"

def fetchFormatsFailMsg : String := "❌ 無法獲取格式資訊"

def invalidVolumeMsg : String := "❌ 無效的音量格式。請使用例如: 1.5、150%、+6dB、-3dB、0.8x"

/-- `"=" * 40`. -/
def sep40 : String := String.mk (List.replicate 40 '=')

/-- The events of a `get_video_info` call up to `extract_info`: the probe
message, then the library query. -/
def fetchPhase : List Ev :=
  [.echo false "🔍 正在獲取影片資訊...", .extractInfo]

/-- `YouTubeConverter.download_video` (cli.py lines 105-139). -/
def download_video (fetchInfo : Option VideoInfo) (downloadOk : Bool)
    (url quality : String) : Bool × List Ev :=
  if validate_youtube_url url then
    match fetchInfo with
    | none => (false, fetchPhase ++ [.echo true fetchInfoFailMsg])
    | some i =>
      let hdr := fetchPhase ++
        [.echo false ("📹 影片標題: " ++ i.title), .echo false ("👤 上傳者: " ++ i.uploader),
         .echo false ("🚀 開始下載影片 (畫質: " ++ quality ++ ")..."),
         .download (getVideoFormatSelector quality) none]
      if downloadOk then (true, hdr ++ [.echo false "✅ 影片下載完成！"])
      else (false, hdr ++ [.echo true "❌ 影片下載失敗"])
  else (false, [.echo true invalidUrlMsg])

/-- The download attempt at the end of `download_audio`, after the options
(including the optional `postprocessor_args` filter) are in place. -/
def audioDownloadPhase (downloadOk : Bool) (hdr : List Ev) (filt : Option String) :
    Bool × List Ev :=
  let evs := hdr ++ [.echo false "🚀 開始下載並轉換為 MP3...", .download "bestaudio/best" filt]
  if downloadOk then (true, evs ++ [.echo false "✅ MP3 下載完成！"])
  else (false, evs ++ [.echo true "❌ MP3 下載失敗"])

/-- `YouTubeConverter.download_audio` (cli.py lines 141-202). -/
def download_audio (fetchInfo : Option VideoInfo) (downloadOk : Bool)
    (url quality : String) (volume : Option String) : Bool × List Ev :=
  if validate_youtube_url url then
    match fetchInfo with
    | none => (false, fetchPhase ++ [.echo true fetchInfoFailMsg])
    | some i =>
      let hdr := fetchPhase ++
        [.echo false ("📹 影片標題: " ++ i.title), .echo false ("👤 上傳者: " ++ i.uploader)]
      match volume with
      | none => audioDownloadPhase downloadOk hdr none
      | some vol =>
        match parseVolume vol with
        | none => (false, hdr ++ [.echo true invalidVolumeMsg])
        | some expr => audioDownloadPhase downloadOk hdr (some expr)
  else (false, [.echo true invalidUrlMsg])

/-- The `audio` click command (cli.py lines 264-291); returns the process
exit status and the trace. -/
def audioCmd (ffmpegOk : Bool) (fetchInfo : Option VideoInfo) (downloadOk : Bool)
    (url outputDir quality : String) (volume : Option String) : Nat × List Ev :=
  let hdr : List Ev := [.echo false "🎵 YouTube 轉 MP3 下載器", .echo false sep40]
  if ffmpegOk then
    let r := download_audio fetchInfo downloadOk url quality volume
    if r.1 then (0, hdr ++ r.2 ++ [.echo false ("📁 MP3 檔案已儲存至: " ++ outputDir)])
    else (1, hdr ++ r.2)
  else
    (1, hdr ++ [.echo true "❌ 需要安裝 FFmpeg 才能轉換音訊格式",
                .echo true "請安裝 FFmpeg: https://ffmpeg.org/download.html"])

/-- `{seconds:02d}` for the two-digit seconds field. -/
def pad2 (n : Nat) : String :=
  if n < 10 then "0" ++ toString n else toString n

/-- The duration line of the `info` command: `f"⏱️  時長: {minutes}:{seconds:02d}"`
with `minutes = duration // 60` and `seconds = duration % 60`. -/
def durationLineMsg (d : Nat) : String :=
  "⏱️  時長: " ++ toString (d / 60) ++ ":" ++ pad2 (d % 60)

/-- The `info` click command (cli.py lines 294-332); returns the process
exit status and the trace.  The second `extract_info` belongs to
`get_available_formats`, which prints its own error and yields empty groups
when the library raises. -/
def infoCmd (fetchInfo : Option VideoInfo) (fetchFormats : Option (List RawFormat))
    (url : String) : Nat × List Ev :=
  let hdr : List Ev := [.echo false "ℹ️  影片資訊", .echo false sep40]
  if validate_youtube_url url then
    match fetchInfo with
    | none => (1, hdr ++ fetchPhase ++ [.echo true fetchInfoFailMsg])
    | some i =>
      let base := hdr ++ fetchPhase ++
        [.echo false ("📹 標題: " ++ i.title), .echo false ("👤 上傳者: " ++ i.uploader)] ++
        (if i.duration ≠ 0 then [.echo false (durationLineMsg i.duration)] else [])
      let fmtPart : List Ev :=
        match fetchFormats with
        | none =>
          [.extractInfo, .echo true fetchFormatsFailMsg,
           .echo false "\n📺 可用影片格式:", .echo false "\n🎵 可用音訊格式:"]
        | some fmts =>
          let g := classifyFormats fmts
          [.extractInfo, .echo false "\n📺 可用影片格式:"] ++
            (g.1.take 5).map Ev.videoFormatLine ++
            [.echo false "\n🎵 可用音訊格式:"] ++
            (g.2.take 3).map Ev.audioFormatLine
      (0, base ++ fmtPart)
  else (1, hdr ++ [.echo true invalidUrlMsg])

/-- Recognizer for printed video-format entries (used to count them). -/
def isVideoLine : Ev → Bool
  | .videoFormatLine _ => true
  | _ => false

/-- Recognizer for printed audio-format entries. -/
def isAudioLine : Ev → Bool
  | .audioFormatLine _ => true
  | _ => false

/-- Recognizer for the printed duration line (any console line starting
with the duration label). -/
def isDurationEcho : Ev → Bool
  | .echo _ m => m.data.take "⏱️  時長: ".data.length == "⏱️  時長: ".data
  | _ => false

example :
    (download_audio (some ⟨"T", "U", 10, []⟩) true "youtube.com/watch?v=abc" "192"
      (some "notanumber")).1 = false := by decide
example :
    Ev.extractInfo ∈ (download_audio (some ⟨"T", "U", 10, []⟩) true "youtube.com/watch?v=abc" "192"
      (some "notanumber")).2 := by decide
example : (audioCmd false (some ⟨"T", "U", 10, []⟩) true "u" "downloads" "192" none).1 = 1 := by decide
example : (infoCmd (some ⟨"T", "U", 0, []⟩) (some []) "youtu.be/x").1 = 0 := by decide
example : ((infoCmd (some ⟨"T", "U", 0, []⟩) (some []) "youtu.be/x").2.any isDurationEcho) = false := by
  decide
example : ((infoCmd (some ⟨"T", "U", 61, []⟩) (some []) "youtu.be/x").2.any isDurationEcho) = true := by
  decide

/-! ## Theorems -/

/-- C3: for every format descriptor in the fetched list, the `video` group
holds exactly (the projections of) the descriptors with non-absent video
codec and non-absent audio codec, in order, and the `audio` group holds
exactly those with absent video codec and non-absent audio codec; a
descriptor with both codecs absent lands in neither group, and no
descriptor is placed in both groups (the two filter predicates are
mutually exclusive). -/
theorem yc_c3 : ∀ fmts : List RawFormat,
    (classifyFormats fmts).1 =
      (fmts.filter fun f => hasVideoCodec f && hasAudioCodec f).map toVideoEntry ∧
    (classifyFormats fmts).2 =
      (fmts.filter fun f => !hasVideoCodec f && hasAudioCodec f).map toAudioEntry := by
  intro fmts
  induction fmts with
  | nil => exact ⟨rfl, rfl⟩
  | cons f rest ih =>
    by_cases h1 : hasVideoCodec f = true <;> by_cases h2 : hasAudioCodec f = true <;>
      simp [classifyFormats, List.filter_cons, h1, h2, ih.1, ih.2]

/-- C4: the `720p` quality label maps to the selector constraining height to
at most 720 with an `mp4`-container preference and a fallback without the
container constraint, and every label outside the six known ones yields the
same selector as `best`, with no error. -/
theorem yc_c4 :
    getVideoFormatSelector "720p" = "best[height<=720][ext=mp4]" ++ "/" ++ "best[height<=720]" ∧
    ∀ q : String, q ∉ ["best", "1080p", "720p", "480p", "360p", "worst"] →
      getVideoFormatSelector q = getVideoFormatSelector "best" := by
  refine ⟨by decide, ?_⟩
  intro q hq
  simp only [List.mem_cons, List.not_mem_nil, or_false, not_or] at hq
  obtain ⟨h1, h2, h3, h4, h5, h6⟩ := hq
  have e1 : (q == "best") = false := beq_eq_false_iff_ne.mpr h1
  have e2 : (q == "1080p") = false := beq_eq_false_iff_ne.mpr h2
  have e3 : (q == "720p") = false := beq_eq_false_iff_ne.mpr h3
  have e4 : (q == "480p") = false := beq_eq_false_iff_ne.mpr h4
  have e5 : (q == "360p") = false := beq_eq_false_iff_ne.mpr h5
  have e6 : (q == "worst") = false := beq_eq_false_iff_ne.mpr h6
  simp [getVideoFormatSelector, qualityMap, List.lookup, e1, e2, e3, e4, e5, e6]

/-- C4 witness: an unknown label falls back to the `best` selector. -/
theorem yc_c4_witness : getVideoFormatSelector "unknown-label" = getVideoFormatSelector "best" :=
  yc_c4.2 "unknown-label" (by decide)

/-- C8: on every progress event delivered by the extraction library — status
`downloading` (which carries `downloaded_bytes`; `total_bytes` may be
absent, `None`, zero or positive) or status `finished` — the progress hook
returns normally and never raises. -/
theorem yc_c8 : ∀ d : ProgressEvent,
    (d.status = "downloading" ∨ d.status = "finished") →
    (d.status = "downloading" → d.downloaded_bytes.isSome = true) →
    ∃ a, progress_hook d = Except.ok a := by
  intro d hst hdb
  obtain ⟨st, dbs, tbs⟩ := d
  simp only at hst hdb
  rcases hst with h | h <;> subst h
  · have hdb' := hdb rfl
    rcases dbs with _ | db
    · simp at hdb'
    · rcases tbs with _ | tb
      · exact ⟨.nothing, rfl⟩
      · rcases tb with _ | n
        · exact ⟨.nothing, rfl⟩
        · by_cases hn : n = 0
          · subst hn; exact ⟨.nothing, rfl⟩
          · exact ⟨.progressLine db n, by simp [progress_hook, hn]⟩
  · exact ⟨.finishedLine, rfl⟩

/-- C8 witness: a `downloading` event with `total_bytes` present but `None`
is handled without raising. -/
theorem yc_c8_witness : ∃ a, progress_hook ⟨"downloading", some 100, some none⟩ = Except.ok a :=
  yc_c8 ⟨"downloading", some 100, some none⟩ (Or.inl rfl) (fun _ => rfl)

/-- C2 counterexample: at `1.1%` the source computes the IEEE-754 double
quotient `float("1.1") / 100.0` and prints its shortest round-trip repr,
giving `volume=0.011000000000000001` — not `volume=0.011`, the exact
decimal expansion of `N / 100` that the claim prescribes for the `%`
branch. -/
theorem yc_c2_counterexample :
    parseVolume "1.1%" = some "volume=0.011000000000000001" ∧
    ¬ parseVolume "1.1%" = some "volume=0.011" := by
  decide

/-- C2 (amended): the volume block of `download_audio` maps, after trimming
the surrounding whitespace and with case-insensitive suffix matching, a
string ending in `db` whose numeric prefix parses (as an IEEE-754 double)
to `N` to `volume=NdB`; a string ending in `%` whose numeric prefix parses
to `N` to `volume=` followed by the rendering of the IEEE-754 quotient
`N / 100` — its shortest round-trip repr, which can differ from the exact
decimal expansion of the rational `N / 100` (see the counterexample) —;
a string ending in `x` whose numeric prefix parses to `N` to `volume=N`;
and a bare number `N` to `volume=N`, each `N` rendered with Python repr;
in particular `150%` gives `volume=1.5`, `+6dB` gives `volume=6.0dB`,
`0.8x` gives `volume=0.8`, `2` gives `volume=2.0`, and `abcdB` fails. -/
theorem yc_c2 :
    (∀ (v : String) (N : PyFloat),
      endsWithL (toLowerL (pyStripL v.data)) "db".data = true →
      pyFloatOfChars (dropRightL (pyStripL v.data) 2) = some N →
      parseVolume v = some ("volume=" ++ pyFloatRepr N ++ "dB")) ∧
    (∀ (v : String) (N : PyFloat),
      endsWithL (toLowerL (pyStripL v.data)) "db".data = false →
      endsWithL (pyStripL v.data) "%".data = true →
      pyFloatOfChars (dropRightL (pyStripL v.data) 1) = some N →
      parseVolume v = some ("volume=" ++ pyFloatRepr (pyDiv100 N))) ∧
    (∀ (v : String) (N : PyFloat),
      endsWithL (toLowerL (pyStripL v.data)) "db".data = false →
      endsWithL (pyStripL v.data) "%".data = false →
      endsWithL (toLowerL (pyStripL v.data)) "x".data = true →
      pyFloatOfChars (dropRightL (pyStripL v.data) 1) = some N →
      parseVolume v = some ("volume=" ++ pyFloatRepr N)) ∧
    (∀ (v : String) (N : PyFloat),
      endsWithL (toLowerL (pyStripL v.data)) "db".data = false →
      endsWithL (pyStripL v.data) "%".data = false →
      endsWithL (toLowerL (pyStripL v.data)) "x".data = false →
      pyFloatOfChars (pyStripL v.data) = some N →
      parseVolume v = some ("volume=" ++ pyFloatRepr N)) ∧
    parseVolume "150%" = some "volume=1.5" ∧
    parseVolume "+6dB" = some "volume=6.0dB" ∧
    parseVolume "0.8x" = some "volume=0.8" ∧
    parseVolume "2" = some "volume=2.0" ∧
    parseVolume "abcdB" = none := by
  refine ⟨?_, ?_, ?_, ?_, by decide, by decide, by decide, by decide, by decide⟩
  · intro v N h1 hp
    simp [parseVolume, h1, hp]
  · intro v N h1 h2 hp
    simp [parseVolume, h1, h2, hp]
  · intro v N h1 h2 h3 hp
    simp [parseVolume, h1, h2, h3, hp]
  · intro v N h1 h2 h3 hp
    simp [parseVolume, h1, h2, h3, hp]

/-- C2 witness: the `%` branch at `150%` (`float("150")` is the double
`5277655813324800 · 2 ^ (-45) = 150`). -/
theorem yc_c2_witness :
    parseVolume "150%" =
      some ("volume=" ++ pyFloatRepr (pyDiv100 (PyFloat.finite false 5277655813324800 (-45)))) :=
  yc_c2.2.1 "150%" (PyFloat.finite false 5277655813324800 (-45)) (by decide) (by decide)
    (by decide)

/-- C10: the volume block accepts every string whose numeric part is
accepted by Python float parsing, beyond the documented decimal grammar:
`inf`, `nan` and `1e2` parse to `volume=inf`, `volume=nan` and
`volume=100.0`, and the resulting expression is passed (as the `-filter:a`
argument) to the media-processing step of the download call. -/
theorem yc_c10 :
    parseVolume "inf" = some "volume=inf" ∧
    parseVolume "nan" = some "volume=nan" ∧
    parseVolume "1e2" = some "volume=100.0" ∧
    (∀ (v : String) (N : PyFloat),
      pyFloatOfChars (volumeNumericPart v) = some N → (parseVolume v).isSome = true) ∧
    (∀ (i : VideoInfo) (downloadOk : Bool) (url quality : String),
      validate_youtube_url url = true →
      Ev.download "bestaudio/best" (some "volume=inf") ∈
        (download_audio (some i) downloadOk url quality (some "inf")).2) := by
  refine ⟨by decide, by decide, by decide, ?_, ?_⟩
  · intro v N hp
    by_cases h1 : endsWithL (toLowerL (pyStripL v.data)) "db".data = true
    · simp only [volumeNumericPart, h1, if_true] at hp
      simp [parseVolume, h1, hp]
    · by_cases h2 : endsWithL (pyStripL v.data) "%".data = true
      · simp [volumeNumericPart, h1, h2] at hp
        simp [parseVolume, h1, h2, hp]
      · by_cases h3 : endsWithL (toLowerL (pyStripL v.data)) "x".data = true
        · simp [volumeNumericPart, h1, h2, h3] at hp
          simp [parseVolume, h1, h2, h3, hp]
        · simp [volumeNumericPart, h1, h2, h3] at hp
          simp [parseVolume, h1, h2, h3, hp]
  · intro i downloadOk url quality hurl
    have hp : parseVolume "inf" = some "volume=inf" := by decide
    cases downloadOk <;>
      simp [download_audio, hurl, hp, audioDownloadPhase, List.mem_append]

/-- C10 witness: `inf` has the whole (suffix-free) string as numeric part
and is accepted. -/
theorem yc_c10_witness : (parseVolume "inf").isSome = true :=
  yc_c10.2.2.2.1 "inf" (PyFloat.inf false) (by decide)

/-- C5 counterexample: with a valid URL, a successfully fetched metadata
record and the unparsable volume string `notanumber`, `download_audio`
does abort with failure — but the extraction library has already been
invoked for the metadata query (`extract_info`), so the claim that the
failure happens "before invoking the external extraction library at all"
is false on the code: volume parsing runs after `get_video_info`. -/
theorem yc_c5_counterexample :
    Ev.extractInfo ∈ (download_audio (some ⟨"T", "U", 10, []⟩) true
      "youtube.com/watch?v=abc" "192" (some "notanumber")).2 ∧
    (download_audio (some ⟨"T", "U", 10, []⟩) true
      "youtube.com/watch?v=abc" "192" (some "notanumber")).1 = false := by
  decide

/-- C5 (amended): for every volume string whose numeric prefix fails to
parse, `download_audio` returns failure without ever invoking the
library's download routine (no download attempted, though the metadata
query may already have run), reports the invalid-volume error whenever it
reaches the parsing step (valid URL, metadata fetched), and the `audio`
command exits with a non-zero status. -/
theorem yc_c5 : ∀ (fetchInfo : Option VideoInfo) (downloadOk : Bool)
    (url outputDir quality v : String),
    parseVolume v = none →
    (download_audio fetchInfo downloadOk url quality (some v)).1 = false ∧
    (∀ f filt, Ev.download f filt ∉ (download_audio fetchInfo downloadOk url quality (some v)).2) ∧
    (fetchInfo.isSome = true → validate_youtube_url url = true →
      Ev.echo true invalidVolumeMsg ∈ (download_audio fetchInfo downloadOk url quality (some v)).2) ∧
    (audioCmd true fetchInfo downloadOk url outputDir quality (some v)).1 = 1 := by
  intro fetchInfo downloadOk url outputDir quality v hv
  by_cases hu : validate_youtube_url url = true
  · cases fetchInfo with
    | none => simp [download_audio, audioCmd, hu, fetchPhase]
    | some i => simp [download_audio, audioCmd, hu, hv, fetchPhase]
  · simp [download_audio, audioCmd, hu]

/-- C5 witness: the amended statement at the scenario input
`--volume notanumber` with a valid URL and fetched metadata. -/
theorem yc_c5_witness :
    (download_audio (some ⟨"T", "U", 10, []⟩) true "youtube.com/watch?v=abc" "192"
      (some "notanumber")).1 = false ∧
    (∀ f filt, Ev.download f filt ∉ (download_audio (some ⟨"T", "U", 10, []⟩) true
      "youtube.com/watch?v=abc" "192" (some "notanumber")).2) ∧
    ((some (⟨"T", "U", 10, []⟩ : VideoInfo)).isSome = true →
      validate_youtube_url "youtube.com/watch?v=abc" = true →
      Ev.echo true invalidVolumeMsg ∈ (download_audio (some ⟨"T", "U", 10, []⟩) true
        "youtube.com/watch?v=abc" "192" (some "notanumber")).2) ∧
    (audioCmd true (some ⟨"T", "U", 10, []⟩) true "youtube.com/watch?v=abc" "downloads" "192"
      (some "notanumber")).1 = 1 :=
  yc_c5 (some ⟨"T", "U", 10, []⟩) true "youtube.com/watch?v=abc" "downloads" "192" "notanumber"
    (by decide)

/-- C6: for every URL rejected by `validate_youtube_url`, both
`download_video` and `download_audio` fail fast: the trace is exactly one
invalid-URL error line, the result is failure, and no metadata query and
no download happen. -/
theorem yc_c6 : ∀ (fetchInfo : Option VideoInfo) (dV dA : Bool)
    (url qV qA : String) (vol : Option String),
    validate_youtube_url url = false →
    download_video fetchInfo dV url qV = (false, [.echo true invalidUrlMsg]) ∧
    download_audio fetchInfo dA url qA vol = (false, [.echo true invalidUrlMsg]) ∧
    Ev.extractInfo ∉ (download_video fetchInfo dV url qV).2 ∧
    Ev.extractInfo ∉ (download_audio fetchInfo dA url qA vol).2 ∧
    (∀ f filt, Ev.download f filt ∉ (download_video fetchInfo dV url qV).2) ∧
    (∀ f filt, Ev.download f filt ∉ (download_audio fetchInfo dA url qA vol).2) := by
  intro fetchInfo dV dA url qV qA vol h
  simp [download_video, download_audio, h]

/-- C6 witness: an unrelated URL is rejected with no network events. -/
theorem yc_c6_witness :
    download_video none true "https://example.com/a" "best" =
      (false, [.echo true invalidUrlMsg]) ∧
    download_audio none true "https://example.com/a" "192" none =
      (false, [.echo true invalidUrlMsg]) ∧
    Ev.extractInfo ∉ (download_video none true "https://example.com/a" "best").2 ∧
    Ev.extractInfo ∉ (download_audio none true "https://example.com/a" "192" none).2 ∧
    (∀ f filt, Ev.download f filt ∉ (download_video none true "https://example.com/a" "best").2) ∧
    (∀ f filt, Ev.download f filt ∉ (download_audio none true "https://example.com/a" "192" none).2) :=
  yc_c6 none true true "https://example.com/a" "best" "192" none (by decide)

/-- C7: when the ffmpeg probe fails, the `audio` command exits with status 1
before any other work: the trace holds no metadata query and no download,
and an error-stream line mentioning `FFmpeg` is printed, with no fallback. -/
theorem yc_c7 : ∀ (fetchInfo : Option VideoInfo) (downloadOk : Bool)
    (url outputDir quality : String) (volume : Option String),
    (audioCmd false fetchInfo downloadOk url outputDir quality volume).1 = 1 ∧
    Ev.extractInfo ∉ (audioCmd false fetchInfo downloadOk url outputDir quality volume).2 ∧
    (∀ f filt,
      Ev.download f filt ∉ (audioCmd false fetchInfo downloadOk url outputDir quality volume).2) ∧
    Ev.echo true ("❌ 需要安裝 " ++ "FFmpeg" ++ " 才能轉換音訊格式") ∈
      (audioCmd false fetchInfo downloadOk url outputDir quality volume).2 := by
  intro fetchInfo downloadOk url outputDir quality volume
  refine ⟨rfl, ?_, ?_, ?_⟩
  · simp [audioCmd]
  · intro f filt; simp [audioCmd]
  · simp [audioCmd]

/-- C9 counterexample: a valid URL whose metadata fetch succeeds with
duration `0` and whose format fetch succeeds: the `info` command exits 0
but prints no duration line at all (`if info['duration']:` is false for 0),
so the claim that the duration is always printed fails. -/
theorem yc_c9_counterexample :
    ((infoCmd (some ⟨"SomeTitle", "SomeUploader", 0, []⟩) (some [])
        "https://youtu.be/abc").2.any isDurationEcho) = false ∧
    (infoCmd (some ⟨"SomeTitle", "SomeUploader", 0, []⟩) (some [])
        "https://youtu.be/abc").1 = 0 := by
  decide

/-- The success trace of the `info` command, written out. -/
theorem infoCmd_success_trace (i : VideoInfo) (fmts : List RawFormat) (url : String)
    (hu : validate_youtube_url url = true) :
    infoCmd (some i) (some fmts) url =
      (0, [Ev.echo false "ℹ️  影片資訊", .echo false sep40] ++ fetchPhase ++
        [.echo false ("📹 標題: " ++ i.title), .echo false ("👤 上傳者: " ++ i.uploader)] ++
        (if i.duration ≠ 0 then [Ev.echo false (durationLineMsg i.duration)] else []) ++
        ([Ev.extractInfo, .echo false "\n📺 可用影片格式:"] ++
          ((classifyFormats fmts).1.take 5).map Ev.videoFormatLine ++
          [Ev.echo false "\n🎵 可用音訊格式:"] ++
          ((classifyFormats fmts).2.take 3).map Ev.audioFormatLine)) := by
  simp [infoCmd, hu]

/-- Every event in the printed video-format segment satisfies `isVideoLine`. -/
theorem filter_isVideoLine_video_take (l : List VideoEntry) (n : Nat) :
    ((l.map Ev.videoFormatLine).take n).filter isVideoLine = (l.map Ev.videoFormatLine).take n := by
  apply List.filter_eq_self.mpr
  intro e he
  have hm := List.take_subset n _ he
  obtain ⟨x, _, rfl⟩ := List.mem_map.mp hm
  rfl

/-- No event in the printed audio-format segment satisfies `isVideoLine`. -/
theorem filter_isVideoLine_audio_take (l : List AudioEntry) (n : Nat) :
    ((l.map Ev.audioFormatLine).take n).filter isVideoLine = [] := by
  rw [List.filter_eq_nil_iff]
  intro e he
  have hm := List.take_subset n _ he
  obtain ⟨x, _, rfl⟩ := List.mem_map.mp hm
  simp [isVideoLine]

/-- Every event in the printed audio-format segment satisfies `isAudioLine`. -/
theorem filter_isAudioLine_audio_take (l : List AudioEntry) (n : Nat) :
    ((l.map Ev.audioFormatLine).take n).filter isAudioLine = (l.map Ev.audioFormatLine).take n := by
  apply List.filter_eq_self.mpr
  intro e he
  have hm := List.take_subset n _ he
  obtain ⟨x, _, rfl⟩ := List.mem_map.mp hm
  rfl

/-- No event in the printed video-format segment satisfies `isAudioLine`. -/
theorem filter_isAudioLine_video_take (l : List VideoEntry) (n : Nat) :
    ((l.map Ev.videoFormatLine).take n).filter isAudioLine = [] := by
  rw [List.filter_eq_nil_iff]
  intro e he
  have hm := List.take_subset n _ he
  obtain ⟨x, _, rfl⟩ := List.mem_map.mp hm
  simp [isAudioLine]

/-- C9 (amended): for every valid URL for which the metadata and format
fetches succeed, the `info` command exits 0, prints the title and the
uploader, prints the duration — rendered as `minutes:seconds` with the
seconds zero-padded to two digits — whenever the duration is non-zero (a
zero duration prints no duration line), and the printed format entries are
exactly the first at-most-5 descriptors of the video group followed by the
first at-most-3 descriptors of the audio group. -/
theorem yc_c9 : ∀ (i : VideoInfo) (fmts : List RawFormat) (url : String),
    validate_youtube_url url = true →
    (infoCmd (some i) (some fmts) url).1 = 0 ∧
    Ev.echo false ("📹 標題: " ++ i.title) ∈ (infoCmd (some i) (some fmts) url).2 ∧
    Ev.echo false ("👤 上傳者: " ++ i.uploader) ∈ (infoCmd (some i) (some fmts) url).2 ∧
    (i.duration ≠ 0 →
      Ev.echo false ("⏱️  時長: " ++ toString (i.duration / 60) ++ ":" ++ pad2 (i.duration % 60)) ∈
        (infoCmd (some i) (some fmts) url).2) ∧
    (infoCmd (some i) (some fmts) url).2.filter isVideoLine =
      ((classifyFormats fmts).1.take 5).map Ev.videoFormatLine ∧
    (infoCmd (some i) (some fmts) url).2.filter isAudioLine =
      ((classifyFormats fmts).2.take 3).map Ev.audioFormatLine ∧
    ((infoCmd (some i) (some fmts) url).2.filter isVideoLine).length ≤ 5 ∧
    ((infoCmd (some i) (some fmts) url).2.filter isAudioLine).length ≤ 3 := by
  intro i fmts url hu
  have hfv : (infoCmd (some i) (some fmts) url).2.filter isVideoLine =
      ((classifyFormats fmts).1.take 5).map Ev.videoFormatLine := by
    rw [infoCmd_success_trace i fmts url hu]
    by_cases hd : i.duration ≠ 0 <;>
      simp [hd, fetchPhase, List.filter_append, isVideoLine,
        filter_isVideoLine_video_take, filter_isVideoLine_audio_take]
  have hfa : (infoCmd (some i) (some fmts) url).2.filter isAudioLine =
      ((classifyFormats fmts).2.take 3).map Ev.audioFormatLine := by
    rw [infoCmd_success_trace i fmts url hu]
    by_cases hd : i.duration ≠ 0 <;>
      simp [hd, fetchPhase, List.filter_append, isAudioLine,
        filter_isAudioLine_audio_take, filter_isAudioLine_video_take]
  refine ⟨?_, ?_, ?_, ?_, hfv, hfa, ?_, ?_⟩
  · rw [infoCmd_success_trace i fmts url hu]
  · rw [infoCmd_success_trace i fmts url hu]; simp [fetchPhase]
  · rw [infoCmd_success_trace i fmts url hu]; simp [fetchPhase]
  · intro hd
    rw [infoCmd_success_trace i fmts url hu]
    simp [fetchPhase, durationLineMsg, hd]
  · rw [hfv]; simp [List.length_take]
  · rw [hfa]; simp [List.length_take]

/-- C9 witness: a 61-second video prints `1:01`. -/
theorem yc_c9_witness :
    Ev.echo false ("⏱️  時長: " ++ toString ((61 : Nat) / 60) ++ ":" ++ pad2 ((61 : Nat) % 60)) ∈
      (infoCmd (some ⟨"T", "U", 61, []⟩) (some []) "youtu.be/x").2 :=
  (yc_c9 ⟨"T", "U", 61, []⟩ [] "youtu.be/x" (by decide)).2.2.2.1 (by decide)

/-- String append acts as list append on the underlying characters. -/
theorem strDataAppend (a b : String) : (a ++ b).data = a.data ++ b.data := rfl

/-- Strings with the same characters are equal. -/
theorem strDataInj : ∀ {a b : String}, a.data = b.data → a = b := by
  intro a b h
  cases a
  cases b
  exact congrArg String.mk h

/-- `stripPrefixChars p s` succeeds with remainder `r` exactly when `s`
decomposes as `p ++ r`. -/
theorem stripPrefixChars_eq_some {p : List Char} :
    ∀ {s r : List Char}, stripPrefixChars p s = some r ↔ s = p ++ r := by
  induction p with
  | nil =>
    intro s r
    simp [stripPrefixChars]
  | cons c cs ih =>
    intro s r
    cases s with
    | nil => simp [stripPrefixChars]
    | cons a as =>
      simp only [stripPrefixChars, List.cons_append, List.cons.injEq]
      by_cases h : c = a
      · subst h
        simp [ih]
      · have h' : ¬ a = c := fun hh => h hh.symm
        simp [h, h']

/-- The id-tail matcher succeeds exactly on a non-empty remainder whose
head is a word-or-hyphen character. -/
theorem hasIdCharHead_iff {r : List Char} :
    hasIdCharHead r = true ↔ ∃ c cs, r = c :: cs ∧ wordOrHyphen c = true := by
  cases r with
  | nil => simp [hasIdCharHead]
  | cons c cs =>
    constructor
    · intro h
      exact ⟨c, cs, rfl, h⟩
    · rintro ⟨c', cs', heq, hw⟩
      injection heq with h1 h2
      subst h1
      exact hw

/-- One regex pattern accepts a string exactly when the string has the
corresponding spec shape. -/
theorem matchYoutubePattern_iff (base : String) (s : String) :
    matchYoutubePattern base s.data = true ↔ isYoutubeShape base s := by
  constructor
  · intro h
    simp only [matchYoutubePattern, List.any_eq_true] at h
    obtain ⟨sch, hsch, w, hw, hm⟩ := h
    cases hstrip : stripPrefixChars (sch.data ++ (w.data ++ base.data)) s.data with
    | none => rw [hstrip] at hm; exact absurd hm (by simp)
    | some rest =>
      rw [hstrip] at hm
      rw [stripPrefixChars_eq_some] at hstrip
      obtain ⟨c, cs, rfl, hwc⟩ := hasIdCharHead_iff.mp hm
      refine ⟨sch, w, ⟨[c]⟩, ⟨cs⟩, ?_, ?_, by simp, ?_, ?_⟩
      · simpa [schemeOptions] using hsch
      · simpa [wwwOptions] using hw
      · intro ch hch
        simp only [List.mem_singleton] at hch
        subst hch
        exact hwc
      · apply strDataInj
        rw [hstrip]
        simp [strDataAppend]
  · rintro ⟨sch, w, idStr, rest, hsch, hw, hne, hall, rfl⟩
    simp only [matchYoutubePattern, List.any_eq_true]
    refine ⟨sch, ?_, w, ?_, ?_⟩
    · rcases hsch with rfl | rfl | rfl <;> simp [schemeOptions]
    · rcases hw with rfl | rfl <;> simp [wwwOptions]
    · have hdata : (sch ++ w ++ base ++ idStr ++ rest).data =
          (sch.data ++ (w.data ++ base.data)) ++ (idStr.data ++ rest.data) := by
        simp [strDataAppend]
      rw [stripPrefixChars_eq_some.mpr hdata]
      cases hid : idStr.data with
      | nil => exact absurd hid hne
      | cons c cs =>
        simp only [List.cons_append, hasIdCharHead]
        exact hall c (by rw [hid]; exact List.mem_cons_self c cs)

/-- C1: `validate_youtube_url` returns true exactly on the strings matching
one of the three accepted URL shapes — `[scheme://][www.]youtube.com/watch?v=<id>`,
`[scheme://][www.]youtu.be/<id>`, `[scheme://][www.]youtube.com/embed/<id>` —
matched as a prefix anchored at the start of the string, with the scheme
(`http` or `https`) and `www.` optional and `<id>` one or more word/hyphen
characters; it returns false on every other string. -/
theorem yc_c1 : ∀ s : String, validate_youtube_url s = true ↔ matchesAcceptedUrlShape s := by
  intro s
  simp only [validate_youtube_url, Bool.or_eq_true, matchYoutubePattern_iff,
    matchesAcceptedUrlShape, or_assoc]

/-- C1 witness: the equivalence at a concrete watch URL. -/
theorem yc_c1_witness :
    validate_youtube_url "https://www.youtube.com/watch?v=dQw4w9WgXcQ" = true ↔
      matchesAcceptedUrlShape "https://www.youtube.com/watch?v=dQw4w9WgXcQ" :=
  yc_c1 "https://www.youtube.com/watch?v=dQw4w9WgXcQ"
